import Mathlib

/-!
# Odometry integration of `webotproject2/lib/odometry.c`

A shallow embedding of the dead-reckoning odometry of a differential-drive
robot, and the properties its specification states about it.

Conventions of the embedding.

* Arithmetic is exact: the C `float`/`double` values are elements of an
  arbitrary linearly ordered field `K` (for instance `ℚ`, where every
  definition below can be evaluated, or `ℝ`).  Rounding, infinities and NaN
  are not represented.  Decimal literals of the source denote the rational
  number they spell; `0.5f` is `1 / 2` and `2.0f` is `2`.
* `/` is the division of the field.  For a divisor `0` the field returns `0`,
  whereas the C code returns an infinity or NaN; statements whose content
  depends on a quotient are meaningful for non-zero divisors.
  `odometry_track_step_pos_checked` makes the division of line 88 explicit: it
  has no result when `wheel_distance` is 0.
* The `int` tick counters are unbounded integers (`Int`); the subtraction of
  two tick counts is the mathematical one.
* `cosf` and `sinf` come from the C library; they are parameters of the step
  function.
* The five calibration globals are passed explicitly as a `Calibration`;
  a function that writes through the pointer `ot` returns the new track.
-/

namespace Odometry

variable {K : Type} [LinearOrderedField K]

/-! ## Data model -/

/-- The constant `PI` of odometry.c (line 30), the decimal literal
`3.14159265358979`. -/
def PI : K := 314159265358979 / 100000000000000

/-- The calibration globals of odometry.c (lines 33-37). -/
structure Calibration (K : Type) where
  increments_per_tour : K
  axis_wheel_ratio : K
  wheel_diameter_left : K
  wheel_diameter_right : K
  scaling_factor : K

/-- The initial values of the calibration globals (lines 33-37):
`976.0f`, `1.293186f`, `0.04105f`, `0.04105f`, `0.974f`. -/
def defaultCalibration : Calibration K where
  increments_per_tour := 976
  axis_wheel_ratio := 1293186 / 1000000
  wheel_diameter_left := 4105 / 100000
  wheel_diameter_right := 4105 / 100000
  scaling_factor := 974 / 1000

/-- Modelled from the spec: the member `state` of `struct sOdometryTrack`,
declared in odometry.h, which is not among the sources.  The fields are the
ones odometry.c reads and writes: the previous absolute tick counts. -/
structure sOdometryTrackState where
  pos_left_prev : Int
  pos_right_prev : Int

/-- Modelled from the spec: the member `configuration` of
`struct sOdometryTrack` (odometry.h is not among the sources): the three
derived factors odometry.c reads and writes. -/
structure sOdometryTrackConfiguration (K : Type) where
  wheel_distance : K
  wheel_conversion_left : K
  wheel_conversion_right : K

/-- Modelled from the spec: the member `result` of `struct sOdometryTrack`
(odometry.h is not among the sources): the accumulated pose. -/
structure sOdometryTrackResult (K : Type) where
  x : K
  y : K
  theta : K

/-- Modelled from the spec: `struct sOdometryTrack` of odometry.h, which is
not among the sources; its three members as odometry.c uses them. -/
structure sOdometryTrack (K : Type) where
  state : sOdometryTrackState
  configuration : sOdometryTrackConfiguration K
  result : sOdometryTrackResult K

/-! ## Operations -/

/-- `odometry_set_wheel_diameters` (lines 40-43): overwrites the two diameter
globals. -/
def odometry_set_wheel_diameters (cal : Calibration K) (left right : K) : Calibration K :=
  { cal with wheel_diameter_left := left, wheel_diameter_right := right }

/-- `odometry_recompute_config` (lines 45-53): writes the three derived
factors of `ot` from the calibration globals. -/
def odometry_recompute_config (cal : Calibration K) (ot : sOdometryTrack K) :
    sOdometryTrack K :=
  { ot with
    configuration :=
      { wheel_distance :=
          cal.axis_wheel_ratio * cal.scaling_factor *
            (cal.wheel_diameter_left + cal.wheel_diameter_right) / 2
        wheel_conversion_left :=
          cal.wheel_diameter_left * cal.scaling_factor * PI / cal.increments_per_tour
        wheel_conversion_right :=
          cal.wheel_diameter_right * cal.scaling_factor * PI / cal.increments_per_tour } }

/-- `odometry_track_start_pos` (lines 58-75): the track after the call and the
returned `int`. -/
def odometry_track_start_pos (cal : Calibration K) (ot : sOdometryTrack K)
    (pos_left pos_right : Int) : sOdometryTrack K × Int :=
  let ot := { ot with result := { x := 0, y := 0, theta := 0 } }
  let ot := { ot with state := { pos_left_prev := pos_left, pos_right_prev := pos_right } }
  let ot := { ot with
    configuration :=
      { wheel_distance :=
          cal.axis_wheel_ratio * cal.scaling_factor *
            (cal.wheel_diameter_left + cal.wheel_diameter_right) / 2
        wheel_conversion_left :=
          cal.wheel_diameter_left * cal.scaling_factor * PI / cal.increments_per_tour
        wheel_conversion_right :=
          cal.wheel_diameter_right * cal.scaling_factor * PI / cal.increments_per_tour } }
  (ot, 1)

/-- `odometry_track_step_pos` (lines 77-105), every operation taken in exact
arithmetic.  The quotient of line 88 is the field's; for `wheel_distance = 0`
see `odometry_track_step_pos_checked`. -/
def odometry_track_step_pos (cosf sinf : K → K) (ot : sOdometryTrack K)
    (pos_left pos_right : Int) : sOdometryTrack K :=
  let delta_pos_left : Int := pos_left - ot.state.pos_left_prev
  let delta_pos_right : Int := pos_right - ot.state.pos_right_prev
  let delta_left : K := (delta_pos_left : K) * ot.configuration.wheel_conversion_left
  let delta_right : K := (delta_pos_right : K) * ot.configuration.wheel_conversion_right
  let delta_theta : K := (delta_right - delta_left) / ot.configuration.wheel_distance
  let theta2 : K := ot.result.theta + delta_theta * (1 / 2)
  let delta_x : K := (delta_left + delta_right) * (1 / 2) * cosf theta2
  let delta_y : K := (delta_left + delta_right) * (1 / 2) * sinf theta2
  let x : K := ot.result.x + delta_x
  let y : K := ot.result.y + delta_y
  let theta : K := ot.result.theta + delta_theta
  let theta : K := if theta > PI then theta - 2 * PI else theta
  let theta : K := if theta < -PI then theta + 2 * PI else theta
  { state := { pos_left_prev := pos_left, pos_right_prev := pos_right }
    configuration := ot.configuration
    result := { x := x, y := y, theta := theta } }

/-- A session: `odometry_track_start_pos` on `ot`, then one
`odometry_track_step_pos` for every tick pair of `steps`, in order. -/
def run (cosf sinf : K → K) (cal : Calibration K) (ot : sOdometryTrack K)
    (pos_left pos_right : Int) (steps : List (Int × Int)) : sOdometryTrack K :=
  steps.foldl (fun t p => odometry_track_step_pos cosf sinf t p.1 p.2)
    (odometry_track_start_pos cal ot pos_left pos_right).1

/-! ## Quantities of the specification -/

/-- Wheel displacement of the left wheel for a new reading (spec 4.3, steps 1-2). -/
def delta_left (ot : sOdometryTrack K) (new_left : Int) : K :=
  ((new_left - ot.state.pos_left_prev : Int) : K) * ot.configuration.wheel_conversion_left

/-- Wheel displacement of the right wheel for a new reading (spec 4.3, steps 1-2). -/
def delta_right (ot : sOdometryTrack K) (new_right : Int) : K :=
  ((new_right - ot.state.pos_right_prev : Int) : K) * ot.configuration.wheel_conversion_right

/-- Heading increment of a step (spec 4.3, step 3). -/
def delta_theta (ot : sOdometryTrack K) (new_left new_right : Int) : K :=
  (delta_right ot new_right - delta_left ot new_left) / ot.configuration.wheel_distance

/-- The single-period normalization as the spec words it (4.3, step 7):
if theta > π subtract 2π; if theta < −π add 2π. -/
def normalize_spec (theta : K) : K :=
  if theta > PI then theta - 2 * PI else if theta < -PI then theta + 2 * PI else theta

/-- The mean of the spec: `mean(l, r) = (l + r) / 2`. -/
def mean (l r : K) : K := (l + r) / 2

/-- A track whose memory is all zero, as a caller declares it before the first
`odometry_track_start_pos`. -/
def zeroTrack : sOdometryTrack K where
  state := { pos_left_prev := 0, pos_right_prev := 0 }
  configuration := { wheel_distance := 0, wheel_conversion_left := 0, wheel_conversion_right := 0 }
  result := { x := 0, y := 0, theta := 0 }

/-! ## Sessions of calls -/

/-- The memory the functions of odometry.c act on: the calibration globals and
the track the pointer `ot` designates. -/
structure Memory (K : Type) where
  calibration : Calibration K
  track : sOdometryTrack K

/-- A call of one of the four functions of odometry.c, with its arguments
other than the pointer `ot`. -/
inductive Call (K : Type) where
  | set_wheel_diameters (left right : K)
  | recompute_config
  | track_start_pos (pos_left pos_right : Int)
  | track_step_pos (pos_left pos_right : Int)

/-- The memory after a call: `odometry_set_wheel_diameters` writes the
globals, the other three functions write the track. -/
def exec (cosf sinf : K → K) (m : Memory K) : Call K → Memory K
  | .set_wheel_diameters left right =>
    { m with calibration := odometry_set_wheel_diameters m.calibration left right }
  | .recompute_config =>
    { m with track := odometry_recompute_config m.calibration m.track }
  | .track_start_pos pos_left pos_right =>
    { m with track := (odometry_track_start_pos m.calibration m.track pos_left pos_right).1 }
  | .track_step_pos pos_left pos_right =>
    { m with track := odometry_track_step_pos cosf sinf m.track pos_left pos_right }

/-- The memory after a sequence of calls, in order. -/
def execAll (cosf sinf : K → K) (m : Memory K) (calls : List (Call K)) : Memory K :=
  calls.foldl (exec cosf sinf) m

/-- The calls that derive a configuration: `odometry_recompute_config` and
`odometry_track_start_pos`. -/
def Call.derives : Call K → Bool
  | .recompute_config => true
  | .track_start_pos _ _ => true
  | _ => false

/-! ## Basic facts -/

theorem PI_pos : (0 : K) < PI := by
  unfold PI; positivity

theorem normalize_spec_of_mem {theta : K} (h1 : -PI ≤ theta) (h2 : theta ≤ PI) :
    normalize_spec theta = theta := by
  unfold normalize_spec
  rw [if_neg (not_lt.mpr h2), if_neg (not_lt.mpr h1)]

/-- The two sequential tests of lines 98-101 agree with `normalize_spec`: after
the subtraction the second test cannot fire. -/
theorem sequential_normalize (theta : K) :
    (if (if theta > PI then theta - 2 * PI else theta) < -PI
      then (if theta > PI then theta - 2 * PI else theta) + 2 * PI
      else (if theta > PI then theta - 2 * PI else theta)) = normalize_spec theta := by
  have hp : (0 : K) < PI := PI_pos
  unfold normalize_spec
  by_cases h : theta > PI
  · have h2 : ¬ (theta - 2 * PI < -PI) := by
      intro hlt; linarith
    simp only [h, if_true, h2, if_false]
  · simp only [h, if_false]

/-- The heading stored by a step is the normalized raw heading. -/
theorem step_pos_theta (cosf sinf : K → K) (ot : sOdometryTrack K) (l r : Int) :
    (odometry_track_step_pos cosf sinf ot l r).result.theta =
      normalize_spec (ot.result.theta + delta_theta ot l r) := by
  simp only [odometry_track_step_pos, delta_left, delta_right, delta_theta]
  exact sequential_normalize _

/-- Calls that derive no configuration leave the configuration of the track
as it was. -/
theorem execAll_configuration (cosf sinf : K → K) (calls : List (Call K)) :
    ∀ m : Memory K, (∀ c ∈ calls, Call.derives c = false) →
      (execAll cosf sinf m calls).track.configuration = m.track.configuration := by
  induction calls with
  | nil => intro m _; rfl
  | cons c cs ih =>
    intro m h
    have hc : Call.derives c = false := h c (List.mem_cons_self c cs)
    have hcs : ∀ c' ∈ cs, Call.derives c' = false :=
      fun c' hc' => h c' (List.mem_cons_of_mem c hc')
    have hstep : (exec cosf sinf m c).track.configuration = m.track.configuration := by
      cases c with
      | set_wheel_diameters left right => rfl
      | recompute_config => simp [Call.derives] at hc
      | track_start_pos pos_left pos_right => simp [Call.derives] at hc
      | track_step_pos pos_left pos_right => rfl
    have := ih (exec cosf sinf m c) hcs
    simpa [execAll, List.foldl, hstep] using this

/-- C1: for every track and every pair of new tick counts,
`odometry_track_step_pos` adds the displacement `(delta_left + delta_right)/2`
along the midpoint heading `theta + delta_theta/2` to `x` and `y`, stores
`theta + delta_theta` after the single-period normalization, and sets the
previous tick state to the new counts; `delta_left`, `delta_right` and
`delta_theta` being the tick differences times the conversion factors and
their difference over `wheel_distance`. -/
theorem step_pos_contract (cosf sinf : K → K) (ot : sOdometryTrack K)
    (new_left new_right : Int) :
    delta_left ot new_left =
        ((new_left - ot.state.pos_left_prev : Int) : K) * ot.configuration.wheel_conversion_left ∧
    delta_right ot new_right =
        ((new_right - ot.state.pos_right_prev : Int) : K) *
          ot.configuration.wheel_conversion_right ∧
    delta_theta ot new_left new_right =
        (delta_right ot new_right - delta_left ot new_left) / ot.configuration.wheel_distance ∧
    (odometry_track_step_pos cosf sinf ot new_left new_right).result.x =
        ot.result.x + ((delta_left ot new_left + delta_right ot new_right) / 2) *
          cosf (ot.result.theta + delta_theta ot new_left new_right / 2) ∧
    (odometry_track_step_pos cosf sinf ot new_left new_right).result.y =
        ot.result.y + ((delta_left ot new_left + delta_right ot new_right) / 2) *
          sinf (ot.result.theta + delta_theta ot new_left new_right / 2) ∧
    (odometry_track_step_pos cosf sinf ot new_left new_right).result.theta =
        normalize_spec (ot.result.theta + delta_theta ot new_left new_right) ∧
    (odometry_track_step_pos cosf sinf ot new_left new_right).state.pos_left_prev = new_left ∧
    (odometry_track_step_pos cosf sinf ot new_left new_right).state.pos_right_prev =
        new_right := by
  refine ⟨rfl, rfl, rfl, ?_, ?_, ?_, rfl, rfl⟩
  · simp only [odometry_track_step_pos, delta_left, delta_right, delta_theta]
    rw [mul_one_div, mul_one_div]
  · simp only [odometry_track_step_pos, delta_left, delta_right, delta_theta]
    rw [mul_one_div, mul_one_div]
  · simp only [odometry_track_step_pos, delta_left, delta_right, delta_theta]
    exact sequential_normalize _

/-- C2: `odometry_track_start_pos` returns 1 and leaves the pose at (0, 0, 0)
and the previous tick state at the given counts; the track and the returned
value are the same whatever track the call started from. -/
theorem start_pos_contract (cal : Calibration K) (ot ot' : sOdometryTrack K)
    (pos_left pos_right : Int) :
    (odometry_track_start_pos cal ot pos_left pos_right).2 = 1 ∧
    (odometry_track_start_pos cal ot pos_left pos_right).1.result.x = 0 ∧
    (odometry_track_start_pos cal ot pos_left pos_right).1.result.y = 0 ∧
    (odometry_track_start_pos cal ot pos_left pos_right).1.result.theta = 0 ∧
    (odometry_track_start_pos cal ot pos_left pos_right).1.state.pos_left_prev = pos_left ∧
    (odometry_track_start_pos cal ot pos_left pos_right).1.state.pos_right_prev = pos_right ∧
    odometry_track_start_pos cal ot pos_left pos_right =
      odometry_track_start_pos cal ot' pos_left pos_right :=
  ⟨rfl, rfl, rfl, rfl, rfl, rfl, rfl⟩

/-- C3: under the same calibration the configuration written by
`odometry_track_start_pos` equals, field by field, the configuration written
by `odometry_recompute_config`, whatever the two tracks held before. -/
theorem start_pos_config_eq_recompute (cal : Calibration K) (ot ot' : sOdometryTrack K)
    (pos_left pos_right : Int) :
    (odometry_track_start_pos cal ot pos_left pos_right).1.configuration.wheel_distance =
      (odometry_recompute_config cal ot').configuration.wheel_distance ∧
    (odometry_track_start_pos cal ot pos_left pos_right).1.configuration.wheel_conversion_left =
      (odometry_recompute_config cal ot').configuration.wheel_conversion_left ∧
    (odometry_track_start_pos cal ot pos_left pos_right).1.configuration.wheel_conversion_right =
      (odometry_recompute_config cal ot').configuration.wheel_conversion_right :=
  ⟨rfl, rfl, rfl⟩

/-- C4, as stated, fails: with the initial calibration the derived
`wheel_distance` is 258525339411/5000000000000, twice the value
`axis_wheel_ratio × scaling_factor × mean(diameter_left, diameter_right) / 2`
of the claim, both for `odometry_recompute_config` and for
`odometry_track_start_pos`. -/
theorem wheel_distance_not_half_mean :
    (odometry_recompute_config (defaultCalibration : Calibration ℚ)
        zeroTrack).configuration.wheel_distance = 258525339411 / 5000000000000 ∧
    (odometry_track_start_pos (defaultCalibration : Calibration ℚ)
        zeroTrack 0 0).1.configuration.wheel_distance = 258525339411 / 5000000000000 ∧
    (defaultCalibration : Calibration ℚ).axis_wheel_ratio *
        (defaultCalibration : Calibration ℚ).scaling_factor *
        mean (defaultCalibration : Calibration ℚ).wheel_diameter_left
          (defaultCalibration : Calibration ℚ).wheel_diameter_right / 2 =
      258525339411 / 10000000000000 ∧
    (odometry_recompute_config (defaultCalibration : Calibration ℚ)
        zeroTrack).configuration.wheel_distance ≠
      (defaultCalibration : Calibration ℚ).axis_wheel_ratio *
        (defaultCalibration : Calibration ℚ).scaling_factor *
        mean (defaultCalibration : Calibration ℚ).wheel_diameter_left
          (defaultCalibration : Calibration ℚ).wheel_diameter_right / 2 := by
  norm_num [odometry_recompute_config, odometry_track_start_pos, defaultCalibration, zeroTrack,
    mean]

/-- C4, amended: for every calibration the `wheel_distance` derived by
`odometry_recompute_config` and by `odometry_track_start_pos` equals
`axis_wheel_ratio × scaling_factor × mean(diameter_left, diameter_right)`,
that is `axis_wheel_ratio × scaling_factor × (diameter_left + diameter_right) / 2`,
with no further division by 2. -/
theorem wheel_distance_eq_mean (cal : Calibration K) (ot : sOdometryTrack K)
    (pos_left pos_right : Int) :
    (odometry_recompute_config cal ot).configuration.wheel_distance =
      cal.axis_wheel_ratio * cal.scaling_factor *
        mean cal.wheel_diameter_left cal.wheel_diameter_right ∧
    (odometry_track_start_pos cal ot pos_left pos_right).1.configuration.wheel_distance =
      cal.axis_wheel_ratio * cal.scaling_factor *
        mean cal.wheel_diameter_left cal.wheel_diameter_right := by
  constructor <;>
    simp only [odometry_recompute_config, odometry_track_start_pos, mean, mul_div_assoc]

/-- C5: for every calibration the derived conversion factors are
`wheel_diameter_left × scaling_factor × PI / increments_per_tour` and
`wheel_diameter_right × scaling_factor × PI / increments_per_tour`, with the
constant `PI` of the program; the left factor does not change when the right
diameter is replaced by any other value, nor the right factor when the left
diameter is. -/
theorem wheel_conversion_contract (cal : Calibration K) (ot : sOdometryTrack K) (d : K) :
    (odometry_recompute_config cal ot).configuration.wheel_conversion_left =
      cal.wheel_diameter_left * cal.scaling_factor * PI / cal.increments_per_tour ∧
    (odometry_recompute_config cal ot).configuration.wheel_conversion_right =
      cal.wheel_diameter_right * cal.scaling_factor * PI / cal.increments_per_tour ∧
    (PI : K) = 314159265358979 / 100000000000000 ∧
    (odometry_recompute_config { cal with wheel_diameter_right := d }
        ot).configuration.wheel_conversion_left =
      (odometry_recompute_config cal ot).configuration.wheel_conversion_left ∧
    (odometry_recompute_config { cal with wheel_diameter_left := d }
        ot).configuration.wheel_conversion_right =
      (odometry_recompute_config cal ot).configuration.wheel_conversion_right :=
  ⟨rfl, rfl, rfl, rfl, rfl⟩

/-- C7 fails on the code: with the initial calibration, whose `wheel_distance`
is not zero, `odometry_track_start_pos(0, 0)` and the single step
`odometry_track_step_pos(0, 4000)` store `theta = 46115654/39442173 · PI`,
which is above `PI` and so outside `(-PI, PI]`: the raw heading exceeds
`3 * PI` and lines 98-99 subtract one period once. -/
theorem large_step_theta_above_PI :
    (odometry_track_start_pos (defaultCalibration : Calibration ℝ)
        zeroTrack 0 0).1.configuration.wheel_distance ≠ 0 ∧
    (run Real.cos Real.sin defaultCalibration zeroTrack 0 0 [(0, 4000)]).result.theta =
      46115654 / 39442173 * PI ∧
    PI < (run Real.cos Real.sin defaultCalibration zeroTrack 0 0 [(0, 4000)]).result.theta ∧
    ¬ (-PI < (run Real.cos Real.sin defaultCalibration zeroTrack 0 0 [(0, 4000)]).result.theta ∧
      (run Real.cos Real.sin defaultCalibration zeroTrack 0 0 [(0, 4000)]).result.theta ≤ PI) := by
  norm_num [run, odometry_track_start_pos, odometry_track_step_pos, defaultCalibration,
    zeroTrack, PI]

/-- C10: with the initial calibration, `odometry_track_start_pos(0, 0)`
followed by `odometry_track_step_pos(10, -10)` yields `x = 0`, `y = 0` and
`theta = -20 · wheel_conversion / wheel_distance`, which lies in `[-PI, PI]`
(no normalization) and is not 0. -/
theorem rotation_scenario (cosf sinf : K → K) (ot : sOdometryTrack K) :
    (run cosf sinf defaultCalibration ot 0 0 [(10, -10)]).result.x = 0 ∧
    (run cosf sinf defaultCalibration ot 0 0 [(10, -10)]).result.y = 0 ∧
    (run cosf sinf defaultCalibration ot 0 0 [(10, -10)]).result.theta ≠ 0 ∧
    (run cosf sinf defaultCalibration ot 0 0 [(10, -10)]).result.theta =
      -20 * (odometry_track_start_pos (defaultCalibration : Calibration K) ot 0
          0).1.configuration.wheel_conversion_left /
        (odometry_track_start_pos (defaultCalibration : Calibration K) ot 0
          0).1.configuration.wheel_distance ∧
    (odometry_track_start_pos (defaultCalibration : Calibration K) ot 0
        0).1.configuration.wheel_conversion_right =
      (odometry_track_start_pos (defaultCalibration : Calibration K) ot 0
        0).1.configuration.wheel_conversion_left ∧
    -PI ≤ (0 : K) + delta_theta (odometry_track_start_pos (defaultCalibration : Calibration K)
        ot 0 0).1 10 (-10) ∧
    (0 : K) + delta_theta (odometry_track_start_pos (defaultCalibration : Calibration K)
        ot 0 0).1 10 (-10) ≤ PI := by
  have hd : delta_theta (odometry_track_start_pos (defaultCalibration : Calibration K)
      ot 0 0).1 10 (-10) = -(625000 / 39442173) * PI := by
    simp only [delta_theta, delta_left, delta_right, odometry_track_start_pos,
      defaultCalibration, PI]
    norm_num
  have hp : (0 : K) < PI := PI_pos
  have hth : (run cosf sinf defaultCalibration ot 0 0 [(10, -10)]).result.theta =
      -(625000 / 39442173) * PI := by
    show (odometry_track_step_pos cosf sinf
      (odometry_track_start_pos (defaultCalibration : Calibration K) ot 0 0).1 10
      (-10)).result.theta = _
    rw [step_pos_theta, hd]
    have h0 : (odometry_track_start_pos (defaultCalibration : Calibration K) ot 0
        0).1.result.theta = 0 := rfl
    rw [h0, zero_add]
    apply normalize_spec_of_mem <;> linarith
  refine ⟨?_, ?_, ?_, ?_, rfl, ?_, ?_⟩
  · simp [run, odometry_track_start_pos, odometry_track_step_pos, defaultCalibration]
  · simp [run, odometry_track_start_pos, odometry_track_step_pos, defaultCalibration]
  · rw [hth]
    have : (0 : K) < 625000 / 39442173 * PI := by positivity
    linarith
  · rw [hth]
    simp only [odometry_track_start_pos, defaultCalibration, PI]
    norm_num
  · rw [hd]; linarith
  · rw [hd]; linarith

/-- C11: `odometry_track_step_pos` leaves `wheel_distance`,
`wheel_conversion_left` and `wheel_conversion_right` of the track unchanged,
and `odometry_set_wheel_diameters` changes no field of the track; hence after
a start, any sequence of steps and calibration changes leaves the track with
the configuration derived at start, until `odometry_recompute_config` is
called, which then writes the configuration of the calibration current at
that time. -/
theorem step_pos_keeps_configuration (cosf sinf : K → K) :
    (∀ (ot : sOdometryTrack K) (pos_left pos_right : Int),
      (odometry_track_step_pos cosf sinf ot pos_left pos_right).configuration.wheel_distance =
        ot.configuration.wheel_distance ∧
      (odometry_track_step_pos cosf sinf ot pos_left
          pos_right).configuration.wheel_conversion_left =
        ot.configuration.wheel_conversion_left ∧
      (odometry_track_step_pos cosf sinf ot pos_left
          pos_right).configuration.wheel_conversion_right =
        ot.configuration.wheel_conversion_right) ∧
    (∀ (m : Memory K) (left right : K),
      (exec cosf sinf m (Call.set_wheel_diameters left right)).track = m.track) ∧
    (∀ (m : Memory K) (pos_left pos_right : Int) (calls : List (Call K)),
      (∀ c ∈ calls, Call.derives c = false) →
      (execAll cosf sinf (exec cosf sinf m (Call.track_start_pos pos_left pos_right))
          calls).track.configuration =
        (odometry_track_start_pos m.calibration m.track pos_left pos_right).1.configuration ∧
      (exec cosf sinf
          (execAll cosf sinf (exec cosf sinf m (Call.track_start_pos pos_left pos_right)) calls)
          Call.recompute_config).track.configuration =
        (odometry_recompute_config
          (execAll cosf sinf (exec cosf sinf m (Call.track_start_pos pos_left pos_right))
            calls).calibration m.track).configuration) := by
  refine ⟨fun _ _ _ => ⟨rfl, rfl, rfl⟩, fun _ _ _ => rfl, ?_⟩
  intro m pos_left pos_right calls h
  exact ⟨execAll_configuration cosf sinf calls _ h, rfl⟩

/-- Witness of C11: after start (0, 0) under the initial calibration, the
calls step (10, 10), `odometry_set_wheel_diameters(0.04, 0.05)`, step (20, 5)
leave the configuration derived at start. -/
theorem step_pos_keeps_configuration_witness :
    (execAll Real.cos Real.sin
        (exec Real.cos Real.sin ⟨defaultCalibration, zeroTrack⟩ (Call.track_start_pos 0 0))
        [Call.track_step_pos 10 10, Call.set_wheel_diameters (4 / 100) (5 / 100),
          Call.track_step_pos 20 5]).track.configuration =
      (odometry_track_start_pos (defaultCalibration : Calibration ℝ) zeroTrack 0
        0).1.configuration :=
  ((step_pos_keeps_configuration Real.cos Real.sin).2.2 ⟨defaultCalibration, zeroTrack⟩ 0 0
    [Call.track_step_pos 10 10, Call.set_wheel_diameters (4 / 100) (5 / 100),
      Call.track_step_pos 20 5]
    (by simp [Call.derives])).1

/-- C12: `odometry_recompute_config` leaves the result pose `(x, y, theta)`
and the previous tick state of the track unchanged, and leaves the five
calibration constants unchanged. -/
theorem recompute_config_frame (cosf sinf : K → K) (cal : Calibration K)
    (ot : sOdometryTrack K) (m : Memory K) :
    (odometry_recompute_config cal ot).result.x = ot.result.x ∧
    (odometry_recompute_config cal ot).result.y = ot.result.y ∧
    (odometry_recompute_config cal ot).result.theta = ot.result.theta ∧
    (odometry_recompute_config cal ot).state.pos_left_prev = ot.state.pos_left_prev ∧
    (odometry_recompute_config cal ot).state.pos_right_prev = ot.state.pos_right_prev ∧
    (exec cosf sinf m Call.recompute_config).calibration = m.calibration ∧
    (exec cosf sinf m Call.recompute_config).track.result = m.track.result ∧
    (exec cosf sinf m Call.recompute_config).track.state = m.track.state :=
  ⟨rfl, rfl, rfl, rfl, rfl, rfl, rfl, rfl⟩

/-- C13: `odometry_set_wheel_diameters(left, right)` stores `left` and `right`
as the two diameters, whatever their values, and leaves `increments_per_tour`,
`axis_wheel_ratio` and `scaling_factor` unchanged; a following
`odometry_recompute_config` on any track yields
`wheel_conversion_left = left × scaling_factor × PI / increments_per_tour`,
`wheel_conversion_right = right × scaling_factor × PI / increments_per_tour`
and `wheel_distance = axis_wheel_ratio × scaling_factor × (left + right) / 2`. -/
theorem set_wheel_diameters_contract (cosf sinf : K → K) (cal : Calibration K) (left right : K)
    (ot : sOdometryTrack K) :
    (odometry_set_wheel_diameters cal left right).wheel_diameter_left = left ∧
    (odometry_set_wheel_diameters cal left right).wheel_diameter_right = right ∧
    (odometry_set_wheel_diameters cal left right).increments_per_tour =
      cal.increments_per_tour ∧
    (odometry_set_wheel_diameters cal left right).axis_wheel_ratio = cal.axis_wheel_ratio ∧
    (odometry_set_wheel_diameters cal left right).scaling_factor = cal.scaling_factor ∧
    (odometry_recompute_config (odometry_set_wheel_diameters cal left right)
        ot).configuration.wheel_conversion_left =
      left * cal.scaling_factor * PI / cal.increments_per_tour ∧
    (odometry_recompute_config (odometry_set_wheel_diameters cal left right)
        ot).configuration.wheel_conversion_right =
      right * cal.scaling_factor * PI / cal.increments_per_tour ∧
    (odometry_recompute_config (odometry_set_wheel_diameters cal left right)
        ot).configuration.wheel_distance =
      cal.axis_wheel_ratio * cal.scaling_factor * (left + right) / 2 ∧
    (execAll cosf sinf ⟨cal, ot⟩
        [Call.set_wheel_diameters left right, Call.recompute_config]).track.configuration =
      { wheel_distance := cal.axis_wheel_ratio * cal.scaling_factor * (left + right) / 2
        wheel_conversion_left := left * cal.scaling_factor * PI / cal.increments_per_tour
        wheel_conversion_right := right * cal.scaling_factor * PI / cal.increments_per_tour } :=
  ⟨rfl, rfl, rfl, rfl, rfl, rfl, rfl, rfl, rfl⟩

/-- C14: the single-period normalization is insufficient for large steps.
There are a track with `theta` in `[-PI, PI]` and non-zero `wheel_distance`
and a tick pair with `|delta_theta| > 2 * PI` after which the stored `theta`
lies outside `[-PI, PI]`: from start (0, 0) under the initial calibration,
every step whose `delta_theta` exceeds `3 * PI` stores a `theta` above `PI`,
and the step (0, 4000) is one. -/
theorem single_period_insufficient (cosf sinf : K → K) (ot0 : sOdometryTrack K) :
    (∃ (ot : sOdometryTrack K) (l r : Int),
      -PI ≤ ot.result.theta ∧ ot.result.theta ≤ PI ∧
      ot.configuration.wheel_distance ≠ 0 ∧
      2 * PI < |delta_theta ot l r| ∧
      ¬ (-PI ≤ (odometry_track_step_pos cosf sinf ot l r).result.theta ∧
        (odometry_track_step_pos cosf sinf ot l r).result.theta ≤ PI)) ∧
    (∀ l r : Int,
      3 * PI < delta_theta (odometry_track_start_pos defaultCalibration ot0 0 0).1 l r →
      PI < (odometry_track_step_pos cosf sinf
        (odometry_track_start_pos defaultCalibration ot0 0 0).1 l r).result.theta) ∧
    3 * PI < delta_theta (odometry_track_start_pos (defaultCalibration : Calibration K)
      ot0 0 0).1 0 4000 := by
  have hp : (0 : K) < PI := PI_pos
  have h0 : (odometry_track_start_pos (defaultCalibration : Calibration K) ot0 0
      0).1.result.theta = 0 := rfl
  have hbig : ∀ l r : Int,
      3 * PI < delta_theta (odometry_track_start_pos defaultCalibration ot0 0 0).1 l r →
      PI < (odometry_track_step_pos cosf sinf
        (odometry_track_start_pos defaultCalibration ot0 0 0).1 l r).result.theta := by
    intro l r h
    rw [step_pos_theta, h0, zero_add]
    unfold normalize_spec
    rw [if_pos (by linarith)]
    linarith
  have hd : delta_theta (odometry_track_start_pos (defaultCalibration : Calibration K)
      ot0 0 0).1 0 4000 = 125000000 / 39442173 * PI := by
    simp only [delta_theta, delta_left, delta_right, odometry_track_start_pos,
      defaultCalibration, PI]
    norm_num
  have h3 : 3 * PI < delta_theta (odometry_track_start_pos (defaultCalibration : Calibration K)
      ot0 0 0).1 0 4000 := by
    rw [hd]
    have : (3 : K) < 125000000 / 39442173 := by norm_num
    nlinarith
  refine ⟨⟨(odometry_track_start_pos defaultCalibration ot0 0 0).1, 0, 4000, ?_, ?_, ?_, ?_, ?_⟩,
    hbig, h3⟩
  · rw [h0]; linarith
  · rw [h0]; linarith
  · simp only [odometry_track_start_pos, defaultCalibration]
    norm_num
  · exact lt_of_lt_of_le (by linarith) (le_abs_self _)
  · intro h
    have := hbig 0 4000 h3
    linarith [h.2]

end Odometry
